import Mathlib

/-!
Shallow embedding of the episode-orchestration core of `rlgym-sim-rs`
(`src/envs/game_match.rs` and `src/gym.rs`), together with the capability
interfaces it consumes (`src/reward_functions/reward_fn.rs` and the other
strategy traits, modelled at their call sites).

Modelling conventions:
* Rust `f32` values are never computed with by this core (they are produced
  by strategy implementations and passed through; the only literal is `0.`),
  so they are modelled by an opaque decidable carrier `F32 := Int`.
* Rust `i32`/`usize` become `Int`/`Nat` (the core performs no overflowing
  arithmetic on them apart from score subtraction, modelled exactly on `Int`).
* Boxed trait objects (`Box<dyn RewardFn>` etc.) become a record of
  transition functions over an abstract internal-state type, threaded
  explicitly: a `&mut self` method of result `r` becomes `args → st → r × st`.
* A Rust `assert!`/index panic aborts the call; an aborting operation returns
  an `Option` result.  `parse_actions` additionally returns the orchestrator
  state as mutated up to the abort point, mirroring the execution order of
  the Rust body.
-/

/-- Carrier for Rust `f32` values, which this core only moves around. -/
abbrev F32 := Int

/-- Opaque vehicle configuration (`rocketsim_rs::sim::CarConfig`), referenced
but never inspected by the orchestrator. -/
structure CarConfig where
  deriving DecidableEq, Repr, Inhabited

/-- Embeds `CarConfig::octane()`, the default vehicle profile. -/
def CarConfig.octane : CarConfig := {}

/-- Per-player record of a simulator snapshot; the orchestrator reads only
the stable per-episode identifier `car_id` (an `i32`). -/
structure PlayerData where
  car_id : Int
  deriving DecidableEq, Repr, Inhabited

/-- Simulator snapshot (`GameState`): the ordered player roster plus the two
team scores (`i32`), the only fields the orchestrator consumes. -/
structure GameState where
  players : List PlayerData
  blue_score : Int
  orange_score : Int
  deriving DecidableEq, Repr, Inhabited

/-- Embeds `GameConfig` from `src/envs/game_match.rs` (lines 51-58). -/
structure GameConfig where
  gravity : F32
  boost_consumption : F32
  team_size : Nat
  tick_skip : Nat
  spawn_opponents : Bool
  car_config : CarConfig
  deriving DecidableEq, Repr

/-- Embeds `Default for GameConfig` (lines 60-71). -/
def GameConfig.default : GameConfig :=
  { gravity := 1, boost_consumption := 1, team_size := 1, tick_skip := 8,
    spawn_opponents := true, car_config := CarConfig.octane }

/-- Reward-function capability (`src/reward_functions/reward_fn.rs`), with
internal state `ρ` threaded explicitly. -/
structure RewardFn (ρ : Type) where
  reset : GameState → Option Nat → ρ → ρ
  pre_step : GameState → ρ → ρ
  get_reward : PlayerData → GameState → ρ → F32 × ρ
  get_final_reward : PlayerData → GameState → ρ → F32 × ρ

/-- Observation-builder capability, as invoked from
`GameMatch::{episode_reset, build_observations}`. -/
structure ObsBuilder (ω : Type) where
  reset : GameState → ω → ω
  pre_step : GameState → GameConfig → ω → ω
  build_obs : PlayerData → GameState → GameConfig → ω → List F32 × ω
  get_obs_space : ω → List Nat

/-- Action-parser capability, as invoked from `GameMatch::parse_actions`. -/
structure ActionParser (α : Type) where
  parse_actions : List (List F32) → GameState → α → List (List F32) × α

/-- Terminal-condition capability, as invoked from
`GameMatch::{episode_reset, is_done, is_truncated}`. -/
structure TerminalCondition (τ : Type) where
  reset : GameState → τ → τ
  is_terminal : GameState → τ → Bool × τ
  is_truncated : GameState → τ → Bool × τ

/-- State-setter capability, as invoked from
`GameMatch::{get_reset_state, set_seeds}`; `χ` is the opaque `StateWrapper`. -/
structure StateSetter (π χ : Type) where
  build_wrapper : Nat → Bool → Option GameState → π → χ × π
  reset : χ → π → χ × π
  set_seed : Nat → π → π

/-- Simulation-backend operations (`RocketsimWrapper`), consumed opaquely;
`σ` is the wrapper's internal state. -/
structure SimOps (σ : Type) where
  create : GameConfig → σ
  step : List (List F32) → σ → GameState × σ
  set_game_config : GameConfig → Bool → σ → GameState × σ

/-- The fields of `MakeConfig` consumed by `GameMatch::new` (each boxed
strategy instance is modelled as its transition record plus its current
internal state). -/
structure MakeConfig (ρ ω α τ π χ σ : Type) where
  game_config : GameConfig
  reward_fn : RewardFn ρ
  reward_state : ρ
  terminal_condition : TerminalCondition τ
  terminal_state : τ
  obs_builder : List (ObsBuilder ω × ω)
  action_parse : ActionParser α
  parser_state : α
  state_setter : StateSetter π χ
  setter_state : π
  use_single_obs : Bool
  sim_ops : SimOps σ

/-- Embeds `GameMatch` (`src/envs/game_match.rs` lines 15-31): orchestrator state.
Each boxed strategy field of the Rust struct is split here into its
transition record and its current internal state. -/
structure GameMatch (ρ ω α τ π χ σ : Type) where
  game_config : GameConfig
  reward_fn : RewardFn ρ
  reward_state : ρ
  terminal_condition : TerminalCondition τ
  terminal_state : τ
  obs_builder : List (ObsBuilder ω × ω)
  action_parse : ActionParser α
  parser_state : α
  state_setter : StateSetter π χ
  setter_state : π
  agents : Nat
  observation_space : List Nat
  use_single_obs : Bool
  action_space : List Nat
  prev_actions : List (List F32)
  spectator_ids : List Int
  initial_score : Int
  sim_ops : SimOps σ
  sim_wrapper : σ

variable {ρ ω α τ π χ σ : Type}

/-- Embeds `GameMatch::new` (lines 84-108). -/
def GameMatch.new (config : MakeConfig ρ ω α τ π χ σ) : GameMatch ρ ω α τ π χ σ :=
  let num_agents := if config.game_config.spawn_opponents then
    config.game_config.team_size * 2 else config.game_config.team_size
  { game_config := config.game_config
    reward_fn := config.reward_fn
    reward_state := config.reward_state
    terminal_condition := config.terminal_condition
    terminal_state := config.terminal_state
    obs_builder := config.obs_builder
    action_parse := config.action_parse
    parser_state := config.parser_state
    state_setter := config.state_setter
    setter_state := config.setter_state
    agents := num_agents
    observation_space := []
    use_single_obs := config.use_single_obs
    action_space := []
    prev_actions := List.replicate num_agents (List.replicate 8 (0 : F32))
    spectator_ids := List.replicate 6 0
    initial_score := 0
    sim_ops := config.sim_ops
    sim_wrapper := config.sim_ops.create config.game_config }

/-- Embeds `GameMatch::episode_reset` (lines 110-121).  Returns `none` exactly when
the Rust body would panic indexing `self._obs_builder[0]` on an empty builder
vector in single-obs mode. -/
def GameMatch.episode_reset (m : GameMatch ρ ω α τ π χ σ) (initial_state : GameState)
    (reward_stage : Option Nat) : Option (GameMatch ρ ω α τ π χ σ) :=
  let spec_ids := initial_state.players.map (fun x => x.car_id)
  let prev_acts := List.replicate m.agents (List.replicate 8 (0 : F32))
  let term_st := m.terminal_condition.reset initial_state m.terminal_state
  let rew_st := m.reward_fn.reset initial_state reward_stage m.reward_state
  let init_score := initial_state.blue_score - initial_state.orange_score
  if m.use_single_obs then
    match m.obs_builder with
    | [] => none
    | (b, s) :: rest =>
      some { m with
              spectator_ids := spec_ids
              prev_actions := prev_acts
              terminal_state := term_st
              reward_state := rew_st
              obs_builder := (b, b.reset initial_state s) :: rest
              initial_score := init_score }
  else
    some { m with
            spectator_ids := spec_ids
            prev_actions := prev_acts
            terminal_state := term_st
            reward_state := rew_st
            obs_builder := m.obs_builder.map (fun pr => (pr.1, pr.1.reset initial_state pr.2))
            initial_score := init_score }

/-- The single-obs iteration of `GameMatch::build_observations` (lines
133-136): `state.players.iter().map(|player| builder0.build_obs(..))`, with
the shared builder's internal state threaded through the iteration. -/
def obsLoopSingle (b : ObsBuilder ω) (state : GameState) (cfg : GameConfig) :
    List PlayerData → ω → List (List F32) × ω
  | [], s => ([], s)
  | p :: ps, s =>
    let r1 := b.build_obs p state cfg s
    let r2 := obsLoopSingle b state cfg ps r1.2
    (r1.1 :: r2.1, r2.2)

/-- The multi-obs iteration of `GameMatch::build_observations` (lines
140-144): `players.iter().zip(&mut obs_builder).map(|(player, func)|
func.build_obs(..))`.  Returns the observations together with the builder
vector after the zipped prefix has been stepped (the zip stops at the
shorter sequence, leaving unzipped builders untouched). -/
def zipBuild (state : GameState) (cfg : GameConfig) :
    List PlayerData → List (ObsBuilder ω × ω) → List (List F32) × List (ObsBuilder ω × ω)
  | [], bs => ([], bs)
  | _ :: _, [] => ([], [])
  | p :: ps, (b, s) :: bs =>
    let r1 := b.build_obs p state cfg s
    let r2 := zipBuild state cfg ps bs
    (r1.1 :: r2.1, (b, r1.2) :: r2.2)

/-- Embeds `GameMatch::build_observations` (lines 123-146).  The first component is
`none` exactly when the Rust body panics: the `assert!` of line 127 in
multi-obs mode, or indexing `self._obs_builder[0]` on an empty builder
vector in single-obs mode; in both cases no orchestrator state has been
mutated yet, so the second component is the unchanged `m`. -/
def GameMatch.build_observations (m : GameMatch ρ ω α τ π χ σ) (state : GameState) :
    Option (List (List F32)) × GameMatch ρ ω α τ π χ σ :=
  if m.use_single_obs = false ∧ m.obs_builder.length < state.players.length then
    (none, m)
  else if m.use_single_obs then
    match m.obs_builder with
    | [] => (none, m)
    | (b, s) :: rest =>
      let s1 := b.pre_step state m.game_config s
      let r := obsLoopSingle b state m.game_config state.players s1
      (some r.1, { m with obs_builder := (b, r.2) :: rest })
  else
    let stepped := m.obs_builder.map (fun pr => (pr.1, pr.1.pre_step state m.game_config pr.2))
    let r := zipBuild state m.game_config state.players stepped
    (some r.1, { m with obs_builder := r.2 })

/-- The reward loop of `GameMatch::get_rewards` (lines 153-159), threading
the reward function's internal state through the per-player calls. -/
def rewardLoop (rf : RewardFn ρ) (state : GameState) (done : Bool) :
    List PlayerData → ρ → List F32 × ρ
  | [], r => ([], r)
  | p :: ps, r =>
    let v := if done then rf.get_final_reward p state r else rf.get_reward p state r
    let rest := rewardLoop rf state done ps v.2
    (v.1 :: rest.1, rest.2)

/-- Embeds `GameMatch::get_rewards` (lines 148-167). -/
def GameMatch.get_rewards (m : GameMatch ρ ω α τ π χ σ) (state : GameState) (done : Bool) :
    List F32 × GameMatch ρ ω α τ π χ σ :=
  let r1 := m.reward_fn.pre_step state m.reward_state
  let r := rewardLoop m.reward_fn state done state.players r1
  (r.1, { m with reward_state := r.2 })

/-- Embeds `GameMatch::is_done` (lines 169-171). -/
def GameMatch.is_done (m : GameMatch ρ ω α τ π χ σ) (state : GameState) :
    Bool × GameMatch ρ ω α τ π χ σ :=
  let r := m.terminal_condition.is_terminal state m.terminal_state
  (r.1, { m with terminal_state := r.2 })

/-- Embeds `GameMatch::is_truncated` (lines 173-175). -/
def GameMatch.is_truncated (m : GameMatch ρ ω α τ π χ σ) (state : GameState) :
    Bool × GameMatch ρ ω α τ π χ σ :=
  let r := m.terminal_condition.is_truncated state m.terminal_state
  (r.1, { m with terminal_state := r.2 })

/-- Embeds `GameMatch::get_result` (lines 177-180); takes `&self`, mutating
nothing. -/
def GameMatch.get_result (m : GameMatch ρ ω α τ π χ σ) (state : GameState) : Int :=
  let current_score := state.blue_score - state.orange_score
  current_score - m.initial_score

/-- Embeds `GameMatch::parse_actions` (lines 186-193).  The first component is
`none` exactly when the `assert!` of line 190 fails; the second component is
the orchestrator state as mutated up to that point of the Rust body (the
action parser has already run, so its internal state is updated in both
outcomes, while `_prev_actions` is overwritten only after the assertion
passes). -/
def GameMatch.parse_actions (m : GameMatch ρ ω α τ π χ σ) (actions : List (List F32))
    (state : GameState) : Option (List (List F32)) × GameMatch ρ ω α τ π χ σ :=
  let r := m.action_parse.parse_actions actions state m.parser_state
  if r.1.length = state.players.length then
    (some r.1, { m with parser_state := r.2, prev_actions := r.1 })
  else
    (none, { m with parser_state := r.2 })

/-- Embeds `GameMatch::get_reset_state` (lines 195-199). -/
def GameMatch.get_reset_state (m : GameMatch ρ ω α τ π χ σ) (state : GameState) :
    χ × GameMatch ρ ω α τ π χ σ :=
  let r1 := m.state_setter.build_wrapper m.game_config.team_size
    m.game_config.spawn_opponents (some state) m.setter_state
  let r2 := m.state_setter.reset r1.1 r1.2
  (r2.1, { m with setter_state := r2.2 })

/-- Embeds `GameMatch::set_seeds` (lines 201-203). -/
def GameMatch.set_seeds (m : GameMatch ρ ω α τ π χ σ) (seed : Nat) :
    GameMatch ρ ω α τ π χ σ :=
  { m with setter_state := m.state_setter.set_seed seed m.setter_state }

/-- Embeds `GameMatch::get_config` (lines 205-207). -/
def GameMatch.get_config (m : GameMatch ρ ω α τ π χ σ) : GameConfig :=
  m.game_config

/-- Embeds `GameMatch::update_settings` (lines 209-220): installs the new config,
recomputes the agent count, optionally replaces the observation builders,
and forwards the config to the simulation backend. -/
def GameMatch.update_settings (m : GameMatch ρ ω α τ π χ σ) (new_config : GameConfig)
    (new_obs_builder : Option (List (ObsBuilder ω × ω))) :
    GameState × GameMatch ρ ω α τ π χ σ :=
  let car_count := if new_config.spawn_opponents then
    new_config.team_size * 2 else new_config.team_size
  let obs_b := match new_obs_builder with
    | some val => val
    | none => m.obs_builder
  let r := m.sim_ops.set_game_config new_config false m.sim_wrapper
  (r.1, { m with
          game_config := new_config
          agents := car_count
          obs_builder := obs_b
          sim_wrapper := r.2 })

/-- Embeds `Gym` (`src/gym.rs` lines 13-18): the environment facade. -/
structure Gym (ρ ω α τ π χ σ : Type) where
  game_match : GameMatch ρ ω α τ π χ σ
  observation_space : List Nat
  action_space : List Nat
  prev_state : GameState

/-- Embeds `Gym::step` (`src/gym.rs` lines 59-78): parse the raw actions against the
cached previous snapshot, advance the simulator, build observations, query
`is_done`, cache the new snapshot, compute rewards with `done`, and assemble
the info map (whose `"result"` value, an `i32` cast to `f32` in Rust, is
modelled by the integer itself).  `none` signals a fatal abort inside
`parse_actions` or `build_observations`. -/
def Gym.step (g : Gym ρ ω α τ π χ σ) (actions : List (List F32)) :
    Option (List (List F32) × List F32 × Bool × List (String × Int) × Gym ρ ω α τ π χ σ) :=
  let pr := g.game_match.parse_actions actions g.prev_state
  match pr.1 with
  | none => none
  | some acts =>
    let sim_res := pr.2.sim_ops.step acts pr.2.sim_wrapper
    let state := sim_res.1
    let m1 := { pr.2 with sim_wrapper := sim_res.2 }
    let ob := m1.build_observations state
    match ob.1 with
    | none => none
    | some obs =>
      let dn := ob.2.is_done state
      let rw := dn.2.get_rewards state dn.1
      let info := [("result", rw.2.get_result state)]
      some (obs, rw.1, dn.1, info, { g with game_match := rw.2, prev_state := state })

/-- Call-log events for instrumenting a reward function. -/
inductive RwEvent
  | resetEv (s : GameState) (stage : Option Nat)
  | preStepEv (s : GameState)
  | rewardEv (p : PlayerData) (s : GameState)
  | finalEv (p : PlayerData) (s : GameState)
  deriving DecidableEq, Repr

/-- Instrumented reward function: every method appends one event to its log,
`get_reward` returns `2 * car_id` and `get_final_reward` returns
`2 * car_id + 1`, so each output identifies both the player it was computed
for and which method produced it. -/
def logRewardFn : RewardFn (List RwEvent) where
  reset := fun s stage l => l ++ [RwEvent.resetEv s stage]
  pre_step := fun s l => l ++ [RwEvent.preStepEv s]
  get_reward := fun p s l => (2 * p.car_id, l ++ [RwEvent.rewardEv p s])
  get_final_reward := fun p s l => (2 * p.car_id + 1, l ++ [RwEvent.finalEv p s])

/-- Call-log events for instrumenting an observation builder. -/
inductive ObsEvent
  | resetEv (s : GameState)
  | preStepEv (s : GameState)
  | buildEv (p : PlayerData) (s : GameState)
  deriving DecidableEq, Repr

/-- Instrumented observation builder over state `Int × List ObsEvent` (an
identifying tag plus a call log): every method appends one event, and
`build_obs` returns `[tag, car_id]`, identifying which builder instance was
paired with which player. -/
def logObsBuilder : ObsBuilder (Int × List ObsEvent) where
  reset := fun s bs => (bs.1, bs.2 ++ [ObsEvent.resetEv s])
  pre_step := fun s _ bs => (bs.1, bs.2 ++ [ObsEvent.preStepEv s])
  build_obs := fun p s _ bs => ([bs.1, p.car_id], (bs.1, bs.2 ++ [ObsEvent.buildEv p s]))
  get_obs_space := fun _ => []

/-- Expected builder states after the zipped build phase of a multi-obs tick
of instrumented builders: the first `players.length` states gain one `build`
event with the matching player, the remaining states are untouched. -/
def buildSpec (state : GameState) :
    List PlayerData → List (Int × List ObsEvent) → List (Int × List ObsEvent)
  | _, [] => []
  | [], cs => cs
  | p :: ps, c :: cs => (c.1, c.2 ++ [ObsEvent.buildEv p state]) :: buildSpec state ps cs

/-- Trivial reward function over unit state, for concrete instantiations. -/
def unitRw : RewardFn Unit where
  reset := fun _ _ u => u
  pre_step := fun _ u => u
  get_reward := fun _ _ u => (0, u)
  get_final_reward := fun _ _ u => (0, u)

/-- Trivial observation builder over unit state. -/
def unitObs : ObsBuilder Unit where
  reset := fun _ u => u
  pre_step := fun _ _ u => u
  build_obs := fun _ _ _ u => ([], u)
  get_obs_space := fun _ => []

/-- Terminal condition that never terminates nor truncates. -/
def unitTC : TerminalCondition Unit where
  reset := fun _ u => u
  is_terminal := fun _ u => (false, u)
  is_truncated := fun _ u => (false, u)

/-- Action parser that echoes its input unchanged. -/
def idActParse : ActionParser Unit where
  parse_actions := fun acts _ u => (acts, u)

/-- Trivial state setter over unit state and unit wrapper. -/
def unitSetter : StateSetter Unit Unit where
  build_wrapper := fun _ _ _ u => ((), u)
  reset := fun w u => (w, u)
  set_seed := fun _ u => u

/-- Simulation backend whose every query returns the fixed snapshot `s`. -/
def constSim (s : GameState) : SimOps Unit where
  create := fun _ => ()
  step := fun _ _ => (s, ())
  set_game_config := fun _ _ _ => (s, ())

/-- Snapshot with two players and both scores zero. -/
def st2 : GameState :=
  { players := [{ car_id := 1 }, { car_id := 2 }], blue_score := 0, orange_score := 0 }

/-- Snapshot with three players and both scores zero. -/
def st3 : GameState :=
  { players := [{ car_id := 1 }, { car_id := 2 }, { car_id := 3 }],
    blue_score := 0, orange_score := 0 }

/-- Snapshot with two players after blue scored once. -/
def stB1 : GameState :=
  { players := [{ car_id := 1 }, { car_id := 2 }], blue_score := 1, orange_score := 0 }

/-- A structurally invalid configuration: `team_size = 0`. -/
def cfg0 : GameConfig := { GameConfig.default with team_size := 0 }

/-- Concrete orchestrator built from the trivial capabilities (default
config: `team_size = 1`, `spawn_opponents = true`, hence 2 agents). -/
def testMatch : GameMatch Unit Unit Unit Unit Unit Unit Unit :=
  GameMatch.new
    { game_config := GameConfig.default
      reward_fn := unitRw
      reward_state := ()
      terminal_condition := unitTC
      terminal_state := ()
      obs_builder := [(unitObs, ())]
      action_parse := idActParse
      parser_state := ()
      state_setter := unitSetter
      setter_state := ()
      use_single_obs := true
      sim_ops := constSim st2 }

/-- Concrete orchestrator carrying the instrumented reward function. -/
def testMatchRw : GameMatch (List RwEvent) Unit Unit Unit Unit Unit Unit :=
  GameMatch.new
    { game_config := GameConfig.default
      reward_fn := logRewardFn
      reward_state := []
      terminal_condition := unitTC
      terminal_state := ()
      obs_builder := [(unitObs, ())]
      action_parse := idActParse
      parser_state := ()
      state_setter := unitSetter
      setter_state := ()
      use_single_obs := true
      sim_ops := constSim st2 }

/-- Concrete orchestrator with one shared instrumented observation builder
(tag `7`), in single-obs mode. -/
def mSingleLog : GameMatch Unit (Int × List ObsEvent) Unit Unit Unit Unit Unit :=
  GameMatch.new
    { game_config := GameConfig.default
      reward_fn := unitRw
      reward_state := ()
      terminal_condition := unitTC
      terminal_state := ()
      obs_builder := [(logObsBuilder, (7, []))]
      action_parse := idActParse
      parser_state := ()
      state_setter := unitSetter
      setter_state := ()
      use_single_obs := true
      sim_ops := constSim st2 }

/-- Concrete orchestrator with two instrumented observation builders (tags
`10` and `20`), in multi-obs mode. -/
def mMulti2 : GameMatch Unit (Int × List ObsEvent) Unit Unit Unit Unit Unit :=
  GameMatch.new
    { game_config := GameConfig.default
      reward_fn := unitRw
      reward_state := ()
      terminal_condition := unitTC
      terminal_state := ()
      obs_builder := [(logObsBuilder, (10, [])), (logObsBuilder, (20, []))]
      action_parse := idActParse
      parser_state := ()
      state_setter := unitSetter
      setter_state := ()
      use_single_obs := false
      sim_ops := constSim st2 }

/-- Concrete orchestrator whose simulator step lands on `stB1` (blue just
scored). -/
def testMatchB : GameMatch Unit Unit Unit Unit Unit Unit Unit :=
  GameMatch.new
    { game_config := GameConfig.default
      reward_fn := unitRw
      reward_state := ()
      terminal_condition := unitTC
      terminal_state := ()
      obs_builder := [(unitObs, ())]
      action_parse := idActParse
      parser_state := ()
      state_setter := unitSetter
      setter_state := ()
      use_single_obs := true
      sim_ops := constSim stB1 }

/-- Concrete facade over `testMatchB`, previous snapshot `st2`. -/
def gymB : Gym Unit Unit Unit Unit Unit Unit Unit :=
  { game_match := testMatchB
    observation_space := []
    action_space := []
    prev_state := st2 }

/-- Concrete orchestrator state after resetting `testMatchB` with `st2`
(both scores zero, so the captured baseline is `0`). -/
def testMatchBReset : GameMatch Unit Unit Unit Unit Unit Unit Unit :=
  (testMatchB.episode_reset st2 none).getD testMatchB

/-- Concrete facade holding the post-reset orchestrator. -/
def gymB2 : Gym Unit Unit Unit Unit Unit Unit Unit :=
  { gymB with game_match := testMatchBReset }

/-- Replace only the `is_truncated` method of an orchestrator's terminal
condition, leaving every other component untouched. -/
def setTruncM (m : GameMatch ρ ω α τ π χ σ) (f : GameState → τ → Bool × τ) :
    GameMatch ρ ω α τ π χ σ :=
  { m with terminal_condition := { m.terminal_condition with is_truncated := f } }

/-- Replace only the `is_truncated` method of the facade's terminal
condition, leaving every other component untouched. -/
def setTrunc (g : Gym ρ ω α τ π χ σ) (f : GameState → τ → Bool × τ) :
    Gym ρ ω α τ π χ σ :=
  { g with game_match := setTruncM g.game_match f }

theorem logRewardFn_preStep (s : GameState) (l : List RwEvent) :
    logRewardFn.pre_step s l = l ++ [RwEvent.preStepEv s] := rfl

theorem logRewardFn_reward (p : PlayerData) (s : GameState) (l : List RwEvent) :
    logRewardFn.get_reward p s l = (2 * p.car_id, l ++ [RwEvent.rewardEv p s]) := rfl

theorem logRewardFn_final (p : PlayerData) (s : GameState) (l : List RwEvent) :
    logRewardFn.get_final_reward p s l = (2 * p.car_id + 1, l ++ [RwEvent.finalEv p s]) := rfl

theorem logObsBuilder_preStep (s : GameState) (cfg : GameConfig) (c : Int × List ObsEvent) :
    logObsBuilder.pre_step s cfg c = (c.1, c.2 ++ [ObsEvent.preStepEv s]) := rfl

theorem logObsBuilder_build (p : PlayerData) (s : GameState) (cfg : GameConfig)
    (c : Int × List ObsEvent) :
    logObsBuilder.build_obs p s cfg c = ([c.1, p.car_id], (c.1, c.2 ++ [ObsEvent.buildEv p s])) :=
  rfl

theorem rewardLoop_length (rf : RewardFn ρ) (state : GameState) (done : Bool)
    (ps : List PlayerData) (r : ρ) :
    (rewardLoop rf state done ps r).1.length = ps.length := by
  induction ps generalizing r with
  | nil => simp [rewardLoop]
  | cons p ps ih => simp [rewardLoop, ih]

theorem rewardLoop_log (state : GameState) (done : Bool) (ps : List PlayerData)
    (l : List RwEvent) :
    rewardLoop logRewardFn state done ps l =
      (ps.map (fun p => 2 * p.car_id + (if done then 1 else 0)),
       l ++ ps.map (fun p =>
         if done then RwEvent.finalEv p state else RwEvent.rewardEv p state)) := by
  induction ps generalizing l with
  | nil => simp [rewardLoop]
  | cons p ps ih =>
    cases done <;> simp [rewardLoop, logRewardFn_reward, logRewardFn_final, ih]

theorem obsLoopSingle_length (b : ObsBuilder ω) (state : GameState) (cfg : GameConfig)
    (ps : List PlayerData) (s : ω) :
    (obsLoopSingle b state cfg ps s).1.length = ps.length := by
  induction ps generalizing s with
  | nil => simp [obsLoopSingle]
  | cons p ps ih => simp [obsLoopSingle, ih]

theorem obsLoopSingle_log (state : GameState) (cfg : GameConfig) (ps : List PlayerData)
    (i : Int) (l : List ObsEvent) :
    obsLoopSingle logObsBuilder state cfg ps (i, l) =
      (ps.map (fun p => [i, p.car_id]),
       (i, l ++ ps.map (fun p => ObsEvent.buildEv p state))) := by
  induction ps generalizing l with
  | nil => simp [obsLoopSingle]
  | cons p ps ih => simp [obsLoopSingle, logObsBuilder_build, ih]

theorem zipBuild_length (state : GameState) (cfg : GameConfig) (ps : List PlayerData)
    (bs : List (ObsBuilder ω × ω)) (h : ps.length ≤ bs.length) :
    (zipBuild state cfg ps bs).1.length = ps.length := by
  induction ps generalizing bs with
  | nil => simp [zipBuild]
  | cons p ps ih =>
    cases bs with
    | nil => simp at h
    | cons b bs =>
      simp only [List.length_cons, Nat.succ_le_succ_iff] at h
      simp [zipBuild, ih bs h]

theorem zipBuild_log (state : GameState) (cfg : GameConfig) (ps : List PlayerData)
    (cs : List (Int × List ObsEvent)) (h : ps.length ≤ cs.length) :
    zipBuild state cfg ps (cs.map (fun c => (logObsBuilder, c))) =
      (List.zipWith (fun p c => ([c.1, p.car_id] : List F32)) ps cs,
       (buildSpec state ps cs).map (fun c => (logObsBuilder, c))) := by
  induction ps generalizing cs with
  | nil =>
    cases cs with
    | nil => simp [zipBuild, buildSpec]
    | cons c cs => simp [zipBuild, buildSpec]
  | cons p ps ih =>
    cases cs with
    | nil => simp at h
    | cons c cs =>
      simp only [List.length_cons, Nat.succ_le_succ_iff] at h
      simp [zipBuild, buildSpec, logObsBuilder_build, ih cs h]

theorem parse_actions_frame (m : GameMatch ρ ω α τ π χ σ) (a : List (List F32))
    (s : GameState) :
    (m.parse_actions a s).2.game_config = m.game_config ∧
    (m.parse_actions a s).2.agents = m.agents ∧
    (m.parse_actions a s).2.spectator_ids = m.spectator_ids ∧
    (m.parse_actions a s).2.initial_score = m.initial_score ∧
    (m.parse_actions a s).2.reward_fn = m.reward_fn ∧
    (m.parse_actions a s).2.reward_state = m.reward_state ∧
    (m.parse_actions a s).2.terminal_condition = m.terminal_condition ∧
    (m.parse_actions a s).2.terminal_state = m.terminal_state ∧
    (m.parse_actions a s).2.obs_builder = m.obs_builder ∧
    (m.parse_actions a s).2.use_single_obs = m.use_single_obs ∧
    (m.parse_actions a s).2.sim_ops = m.sim_ops ∧
    (m.parse_actions a s).2.sim_wrapper = m.sim_wrapper := by
  by_cases h : (m.action_parse.parse_actions a s m.parser_state).1.length = s.players.length <;>
    simp [GameMatch.parse_actions, h]

theorem build_observations_frame (m : GameMatch ρ ω α τ π χ σ) (s : GameState) :
    (m.build_observations s).2.game_config = m.game_config ∧
    (m.build_observations s).2.agents = m.agents ∧
    (m.build_observations s).2.spectator_ids = m.spectator_ids ∧
    (m.build_observations s).2.initial_score = m.initial_score ∧
    (m.build_observations s).2.prev_actions = m.prev_actions ∧
    (m.build_observations s).2.reward_fn = m.reward_fn ∧
    (m.build_observations s).2.reward_state = m.reward_state ∧
    (m.build_observations s).2.terminal_condition = m.terminal_condition ∧
    (m.build_observations s).2.terminal_state = m.terminal_state ∧
    (m.build_observations s).2.sim_ops = m.sim_ops ∧
    (m.build_observations s).2.sim_wrapper = m.sim_wrapper := by
  by_cases h1 : (m.use_single_obs = false ∧ m.obs_builder.length < s.players.length)
  · simp [GameMatch.build_observations, h1]
  · by_cases h2 : m.use_single_obs = true
    · rcases hb : m.obs_builder with _ | ⟨⟨b, st⟩, rest⟩ <;>
        simp [GameMatch.build_observations, h1, h2, hb]
    · have hf : m.use_single_obs = false := by
        cases hu : m.use_single_obs
        · rfl
        · exact absurd hu h2
      have h3 : ¬ m.obs_builder.length < s.players.length := fun hl => h1 ⟨hf, hl⟩
      simp [GameMatch.build_observations, hf, h3]

theorem get_rewards_frame (m : GameMatch ρ ω α τ π χ σ) (s : GameState) (done : Bool) :
    (m.get_rewards s done).2.game_config = m.game_config ∧
    (m.get_rewards s done).2.agents = m.agents ∧
    (m.get_rewards s done).2.spectator_ids = m.spectator_ids ∧
    (m.get_rewards s done).2.initial_score = m.initial_score ∧
    (m.get_rewards s done).2.prev_actions = m.prev_actions := by
  simp [GameMatch.get_rewards]

theorem is_done_frame (m : GameMatch ρ ω α τ π χ σ) (s : GameState) :
    (m.is_done s).2.game_config = m.game_config ∧
    (m.is_done s).2.agents = m.agents ∧
    (m.is_done s).2.spectator_ids = m.spectator_ids ∧
    (m.is_done s).2.initial_score = m.initial_score ∧
    (m.is_done s).2.prev_actions = m.prev_actions ∧
    (m.is_done s).2.reward_fn = m.reward_fn ∧
    (m.is_done s).2.reward_state = m.reward_state := by
  simp [GameMatch.is_done]

theorem is_truncated_frame (m : GameMatch ρ ω α τ π χ σ) (s : GameState) :
    (m.is_truncated s).2.game_config = m.game_config ∧
    (m.is_truncated s).2.agents = m.agents ∧
    (m.is_truncated s).2.spectator_ids = m.spectator_ids ∧
    (m.is_truncated s).2.initial_score = m.initial_score ∧
    (m.is_truncated s).2.prev_actions = m.prev_actions := by
  simp [GameMatch.is_truncated]

theorem parse_snd_tc (m : GameMatch ρ ω α τ π χ σ) (a : List (List F32)) (s : GameState) :
    (m.parse_actions a s).2.terminal_condition = m.terminal_condition := by
  obtain ⟨-, -, -, -, -, -, h, -, -, -, -, -⟩ := parse_actions_frame m a s
  exact h

theorem parse_snd_ts (m : GameMatch ρ ω α τ π χ σ) (a : List (List F32)) (s : GameState) :
    (m.parse_actions a s).2.terminal_state = m.terminal_state := by
  obtain ⟨-, -, -, -, -, -, -, h, -, -, -, -⟩ := parse_actions_frame m a s
  exact h

theorem parse_snd_is (m : GameMatch ρ ω α τ π χ σ) (a : List (List F32)) (s : GameState) :
    (m.parse_actions a s).2.initial_score = m.initial_score := by
  obtain ⟨-, -, -, h, -, -, -, -, -, -, -, -⟩ := parse_actions_frame m a s
  exact h

theorem parse_snd_so (m : GameMatch ρ ω α τ π χ σ) (a : List (List F32)) (s : GameState) :
    (m.parse_actions a s).2.sim_ops = m.sim_ops := by
  obtain ⟨-, -, -, -, -, -, -, -, -, -, h, -⟩ := parse_actions_frame m a s
  exact h

theorem parse_snd_sw (m : GameMatch ρ ω α τ π χ σ) (a : List (List F32)) (s : GameState) :
    (m.parse_actions a s).2.sim_wrapper = m.sim_wrapper := by
  obtain ⟨-, -, -, -, -, -, -, -, -, -, -, h⟩ := parse_actions_frame m a s
  exact h

theorem build_snd_tc (m : GameMatch ρ ω α τ π χ σ) (s : GameState) :
    (m.build_observations s).2.terminal_condition = m.terminal_condition := by
  obtain ⟨-, -, -, -, -, -, -, h, -, -, -⟩ := build_observations_frame m s
  exact h

theorem build_snd_ts (m : GameMatch ρ ω α τ π χ σ) (s : GameState) :
    (m.build_observations s).2.terminal_state = m.terminal_state := by
  obtain ⟨-, -, -, -, -, -, -, -, h, -, -⟩ := build_observations_frame m s
  exact h

theorem build_snd_is (m : GameMatch ρ ω α τ π χ σ) (s : GameState) :
    (m.build_observations s).2.initial_score = m.initial_score := by
  obtain ⟨-, -, -, h, -, -, -, -, -, -, -⟩ := build_observations_frame m s
  exact h

theorem is_done_snd_is (m : GameMatch ρ ω α τ π χ σ) (s : GameState) :
    (m.is_done s).2.initial_score = m.initial_score := by
  obtain ⟨-, -, -, h, -, -, -⟩ := is_done_frame m s
  exact h

theorem get_rewards_snd_is (m : GameMatch ρ ω α τ π χ σ) (s : GameState) (d : Bool) :
    (m.get_rewards s d).2.initial_score = m.initial_score := by
  obtain ⟨-, -, -, h, -⟩ := get_rewards_frame m s d
  exact h

/-- Invariants of a completed `Gym.step` call: the returned `done` flag is
the terminal condition's `is_terminal` verdict on the new snapshot (which is
cached as `prev_state`), the info map is exactly the `"result"` entry set to
the orchestrator's `get_result` on that snapshot, the episode baseline score
survives the step, and the cached snapshot is the simulator's output on the
parsed actions. -/
theorem gymStep_inv (g : Gym ρ ω α τ π χ σ) (actions : List (List F32))
    (obs : List (List F32)) (rew : List F32) (done : Bool)
    (info : List (String × Int)) (g1 : Gym ρ ω α τ π χ σ)
    (h : Gym.step g actions = some (obs, rew, done, info, g1)) :
    done = (g.game_match.terminal_condition.is_terminal g1.prev_state
              g.game_match.terminal_state).1 ∧
    info = [("result", g1.game_match.get_result g1.prev_state)] ∧
    g1.game_match.initial_score = g.game_match.initial_score ∧
    ∀ parsed, (g.game_match.parse_actions actions g.prev_state).1 = some parsed →
      g1.prev_state = (g.game_match.sim_ops.step parsed g.game_match.sim_wrapper).1 := by
  simp only [Gym.step] at h
  split at h
  · exact absurd h (by simp)
  · rename_i acts hp
    split at h
    · exact absurd h (by simp)
    · rename_i obsE hb
      simp only [Option.some.injEq, Prod.mk.injEq] at h
      obtain ⟨hobs, hrew, hdone, hinfo, hg1⟩ := h
      subst hobs hrew hdone hinfo hg1
      refine ⟨?_, rfl, ?_, ?_⟩
      · simp [GameMatch.is_done, build_snd_tc, build_snd_ts, parse_snd_tc, parse_snd_ts]
      · simp [get_rewards_snd_is, is_done_snd_is, build_snd_is, parse_snd_is]
      · intro parsed hq
        rw [hp] at hq
        obtain rfl : acts = parsed := Option.some.inj hq
        simp [parse_snd_so, parse_snd_sw]

/-- C1: for every config with `team_size = n` and `spawn_opponents = b`, the
orchestrator's derived agent count equals `2*n` when `b` is true and `n`
when `b` is false, both at `GameMatch::new` and immediately after any
`update_settings` call with that config (no re-construction needed). -/
theorem spec_c1 :
    (∀ {r o a t p c s : Type} (config : MakeConfig r o a t p c s),
      (GameMatch.new config).agents =
        (if config.game_config.spawn_opponents then 2 * config.game_config.team_size
         else config.game_config.team_size)) ∧
    (∀ {r o a t p c s : Type} (m : GameMatch r o a t p c s) (new_config : GameConfig)
      (nb : Option (List (ObsBuilder o × o))),
      (m.update_settings new_config nb).2.agents =
        (if new_config.spawn_opponents then 2 * new_config.team_size
         else new_config.team_size)) := by
  constructor
  · intro r o a t p c s config
    cases hsp : config.game_config.spawn_opponents <;> simp [GameMatch.new, hsp, Nat.mul_comm]
  · intro r o a t p c s m cfg nb
    cases hsp : cfg.spawn_opponents <;> simp [GameMatch.update_settings, hsp, Nat.mul_comm]

/-- C2: `parse_actions` invokes the Action Parser; if the parser output's
length differs from the snapshot's player count the call aborts (returning
neither a truncated nor a padded sequence); if the lengths agree, the parsed
sequence is stored as `prev_actions` and returned unchanged. -/
theorem spec_c2 (m : GameMatch ρ ω α τ π χ σ) (actions : List (List F32))
    (state : GameState) :
    ((m.action_parse.parse_actions actions state m.parser_state).1.length ≠
        state.players.length →
      (m.parse_actions actions state).1 = none) ∧
    ((m.action_parse.parse_actions actions state m.parser_state).1.length =
        state.players.length →
      m.parse_actions actions state =
        (some (m.action_parse.parse_actions actions state m.parser_state).1,
         { m with
            parser_state := (m.action_parse.parse_actions actions state m.parser_state).2
            prev_actions := (m.action_parse.parse_actions actions state m.parser_state).1 })) := by
  constructor
  · intro h
    simp [GameMatch.parse_actions, h]
  · intro h
    simp [GameMatch.parse_actions, h]

/-- C2 witness: with the echo parser and a two-player snapshot, one raw
action aborts the call, while two raw actions are returned unchanged. -/
theorem spec_c2_witness :
    (testMatch.parse_actions [[0]] st2).1 = none ∧
    (testMatch.parse_actions [[0], [1]] st2).1 = some [[0], [1]] := by
  constructor
  · exact (spec_c2 testMatch [[0]] st2).1 (by decide)
  · have h := (spec_c2 testMatch [[0], [1]] st2).2 (by decide)
    rw [h]
    rfl

/-- C6 counterexample: `update_settings` with `team_size = 0` is not
rejected: the call completes, installs the config, and recomputes the agent
count as `0`. -/
theorem spec_c6_counterexample :
    (testMatch.update_settings cfg0 none).2.game_config.team_size = 0 ∧
    (testMatch.update_settings cfg0 none).2.agents = 0 :=
  ⟨rfl, rfl⟩

/-- C6 amended: `update_settings` performs no validation at all: every
config (including one with `team_size = 0`) is accepted, installed
wholesale, and the agent count is recomputed from it (yielding `0` for
`team_size = 0`). -/
theorem spec_c6_amended :
    ∀ {r o a t p c s : Type} (m : GameMatch r o a t p c s) (new_config : GameConfig)
      (nb : Option (List (ObsBuilder o × o))),
      (m.update_settings new_config nb).2.game_config = new_config ∧
      (m.update_settings new_config nb).2.agents =
        (if new_config.spawn_opponents then new_config.team_size * 2
         else new_config.team_size) := by
  intro r o a t p c s m cfg nb
  constructor <;> simp [GameMatch.update_settings]

/-- C7 counterexample: after an `episode_reset` with a two-player snapshot
the `spectator_ids` sequence has length 2, not the claimed fixed capacity
of 6. -/
theorem spec_c7_counterexample :
    (testMatch.episode_reset st2 none).map (fun m => m.spectator_ids.length) = some 2 ∧
    (2 : Nat) ≠ 6 := by
  constructor
  · rfl
  · decide

/-- C7 amended: `spectator_ids` is created with exactly 6 zeroed slots at
construction, but every `episode_reset` replaces it by one identifier per
player of the reset snapshot, in snapshot order — its length becomes the
player count, not a fixed 6. -/
theorem spec_c7_amended :
    (∀ {r o a t p c s : Type} (config : MakeConfig r o a t p c s),
      (GameMatch.new config).spectator_ids = List.replicate 6 0) ∧
    (∀ {r o a t p c s : Type} (m m' : GameMatch r o a t p c s) (s0 : GameState)
      (stage : Option Nat), m.episode_reset s0 stage = some m' →
        m'.spectator_ids = s0.players.map (fun x => x.car_id)) := by
  constructor
  · intro r o a t p c s config
    rfl
  · intro r o a t p c s m m' s0 stage h
    simp only [GameMatch.episode_reset] at h
    split at h
    · split at h
      · exact absurd h (by simp)
      · obtain rfl := Option.some.inj h
        rfl
    · obtain rfl := Option.some.inj h
      rfl

/-- C7 amended witness: resetting the concrete orchestrator with the
two-player snapshot populates `spectator_ids` with those players' ids. -/
theorem spec_c7_amended_witness :
    (testMatch.episode_reset st2 none).map (fun m => m.spectator_ids) = some [1, 2] := by
  rcases hres : testMatch.episode_reset st2 none with _ | m'
  · have hs : (testMatch.episode_reset st2 none).isSome = true := rfl
    rw [hres] at hs
    exact absurd hs (by simp)
  · have h2 := (spec_c7_amended).2 testMatch m' st2 none hres
    simp [h2, st2]

/-- C3: `get_rewards(state, done)` calls the Reward Function's `pre_step`
exactly once, then returns one scalar per player of `state` in snapshot
order, each entry produced by `get_final_reward` when `done` is true and by
`get_reward` when `done` is false (for every agent, not only one).  The
first conjunct gives the one-per-player cardinality for every reward
function; the second runs the instrumented reward function, whose output
values identify the producing method and player and whose final log is
exactly one `pre_step` event followed by one per-player reward event in
snapshot order. -/
theorem spec_c3 :
    (∀ {r o a t p c s : Type} (m : GameMatch r o a t p c s) (state : GameState)
      (done : Bool), (m.get_rewards state done).1.length = state.players.length) ∧
    (∀ {o a t p c s : Type} (m : GameMatch (List RwEvent) o a t p c s)
      (state : GameState) (done : Bool), m.reward_fn = logRewardFn →
        (m.get_rewards state done).1 =
          state.players.map (fun p => 2 * p.car_id + (if done then 1 else 0)) ∧
        (m.get_rewards state done).2.reward_state =
          m.reward_state ++ [RwEvent.preStepEv state] ++
            state.players.map (fun p =>
              if done then RwEvent.finalEv p state else RwEvent.rewardEv p state)) := by
  constructor
  · intro r o a t p c s m state done
    simp [GameMatch.get_rewards, rewardLoop_length]
  · intro o a t p c s m state done hrf
    have h := rewardLoop_log state done state.players
      (m.reward_state ++ [RwEvent.preStepEv state])
    constructor
    · simp [GameMatch.get_rewards, hrf, logRewardFn_preStep, h]
    · simp [GameMatch.get_rewards, hrf, logRewardFn_preStep, h]

/-- C3 witness: on the two-player snapshot the instrumented orchestrator
returns `[3, 5]` on the terminal tick (both entries from
`get_final_reward`), `[2, 4]` otherwise (both from `get_reward`), and its
log shows one `pre_step` followed by the two per-player calls in order. -/
theorem spec_c3_witness :
    (testMatchRw.get_rewards st2 true).1 = [3, 5] ∧
    (testMatchRw.get_rewards st2 false).1 = [2, 4] ∧
    (testMatchRw.get_rewards st2 true).2.reward_state =
      [RwEvent.preStepEv st2, RwEvent.finalEv { car_id := 1 } st2,
       RwEvent.finalEv { car_id := 2 } st2] := by
  have ht := (spec_c3).2 testMatchRw st2 true rfl
  have hf := (spec_c3).2 testMatchRw st2 false rfl
  refine ⟨?_, ?_, ?_⟩
  · rw [ht.1]; decide
  · rw [hf.1]; decide
  · rw [ht.2]; decide

/-- C4: `build_observations(state)` returns exactly one observation per
player, preserving snapshot order.  Conjuncts: (1) in multi-obs mode with
fewer builders than players the call aborts with no state change; (2) in
multi-obs mode with enough builders, and (3) in single-obs mode with a
builder present, the output has one entry per player; (4) with the single
shared instrumented builder, `pre_step` is logged exactly once and `build`
exactly once per player in snapshot order; (5) with instrumented builders in
multi-obs mode, every builder (even beyond the player count) logs exactly
one `pre_step`, after which players are zipped with builders in order, each
zipped builder logging exactly one `build` with its matching player. -/
theorem spec_c4 :
    (∀ {r o a t p c s : Type} (m : GameMatch r o a t p c s) (state : GameState),
      m.use_single_obs = false → m.obs_builder.length < state.players.length →
        m.build_observations state = (none, m)) ∧
    (∀ {r o a t p c s : Type} (m : GameMatch r o a t p c s) (state : GameState),
      m.use_single_obs = false → state.players.length ≤ m.obs_builder.length →
        Option.map List.length (m.build_observations state).1 =
          some state.players.length) ∧
    (∀ {r o a t p c s : Type} (m : GameMatch r o a t p c s) (state : GameState),
      m.use_single_obs = true → m.obs_builder ≠ [] →
        Option.map List.length (m.build_observations state).1 =
          some state.players.length) ∧
    (∀ {r a t p c s : Type} (m : GameMatch r (Int × List ObsEvent) a t p c s)
      (state : GameState) (i : Int) (l : List ObsEvent)
      (rest : List (ObsBuilder (Int × List ObsEvent) × (Int × List ObsEvent))),
      m.use_single_obs = true → m.obs_builder = (logObsBuilder, (i, l)) :: rest →
        m.build_observations state =
          (some (state.players.map (fun p => [i, p.car_id])),
           { m with
              obs_builder :=
                (logObsBuilder,
                  (i, l ++ [ObsEvent.preStepEv state] ++
                    state.players.map (fun p => ObsEvent.buildEv p state))) :: rest })) ∧
    (∀ {r a t p c s : Type} (m : GameMatch r (Int × List ObsEvent) a t p c s)
      (state : GameState) (cs : List (Int × List ObsEvent)),
      m.use_single_obs = false →
      m.obs_builder = cs.map (fun c => (logObsBuilder, c)) →
      state.players.length ≤ cs.length →
        m.build_observations state =
          (some (List.zipWith (fun p c => ([c.1, p.car_id] : List F32)) state.players cs),
           { m with
              obs_builder :=
                (buildSpec state state.players
                  (cs.map (fun c => (c.1, c.2 ++ [ObsEvent.preStepEv state])))).map
                  (fun c => (logObsBuilder, c)) })) := by
  refine ⟨?_, ?_, ?_, ?_, ?_⟩
  · intro r o a t p c s m state h1 h2
    simp [GameMatch.build_observations, h1, h2]
  · intro r o a t p c s m state h1 h2
    have h3 : ¬ m.obs_builder.length < state.players.length := not_lt.mpr h2
    simp [GameMatch.build_observations, h1, h3, zipBuild_length, h2]
  · intro r o a t p c s m state h1 hne
    rcases hb : m.obs_builder with _ | ⟨⟨b, st⟩, rest⟩
    · exact absurd hb hne
    · simp [GameMatch.build_observations, h1, hb, obsLoopSingle_length]
  · intro r a t p c s m state i l rest h1 hb
    simp [GameMatch.build_observations, h1, hb, logObsBuilder_preStep, obsLoopSingle_log]
  · intro r a t p c s m state cs h1 hb hlen
    have h3 : ¬ m.obs_builder.length < state.players.length := by
      rw [hb]
      simp only [List.length_map]
      omega
    have hstep : (List.map (fun c => (logObsBuilder, c)) cs).map
        (fun pr => (pr.1, pr.1.pre_step state m.game_config pr.2)) =
        (cs.map (fun c => (c.1, c.2 ++ [ObsEvent.preStepEv state]))).map
          (fun c => (logObsBuilder, c)) := by
      simp [List.map_map, Function.comp, logObsBuilder_preStep]
    have hzip := zipBuild_log state m.game_config state.players
      (cs.map (fun c => (c.1, c.2 ++ [ObsEvent.preStepEv state]))) (by simpa using hlen)
    simp only [GameMatch.build_observations]
    rw [if_neg (fun hc => h3 hc.2), if_neg (by simp [h1])]
    rw [hb, hstep, hzip]
    simp [List.zipWith_map_right]

/-- C4 witness: with two instrumented builders (tags 10, 20), three players
abort the call untouched, while two players yield `[[10,1],[20,2]]`; with
the single shared instrumented builder (tag 7), two players yield
`[[7,1],[7,2]]`. -/
theorem spec_c4_witness :
    mMulti2.build_observations st3 = (none, mMulti2) ∧
    (mMulti2.build_observations st2).1 = some [[10, 1], [20, 2]] ∧
    (mSingleLog.build_observations st2).1 = some [[7, 1], [7, 2]] := by
  refine ⟨?_, ?_, ?_⟩
  · exact (spec_c4).1 mMulti2 st3 rfl (by decide)
  · have h := (spec_c4).2.2.2.2 mMulti2 st2 [(10, []), (20, [])] rfl rfl (by decide)
    rw [h]
    rfl
  · have h := (spec_c4).2.2.2.1 mSingleLog st2 7 [] [] rfl rfl
    rw [h]
    rfl

theorem parse_mod (m : GameMatch ρ ω α τ π χ σ) (f : GameState → τ → Bool × τ)
    (a : List (List F32)) (s : GameState) :
    (setTruncM m f).parse_actions a s =
      ((m.parse_actions a s).1, setTruncM (m.parse_actions a s).2 f) := by
  by_cases hc : (m.action_parse.parse_actions a s m.parser_state).1.length =
      s.players.length <;>
    simp [GameMatch.parse_actions, setTruncM, hc]

theorem build_mod (m : GameMatch ρ ω α τ π χ σ) (f : GameState → τ → Bool × τ)
    (s : GameState) :
    (setTruncM m f).build_observations s =
      ((m.build_observations s).1, setTruncM (m.build_observations s).2 f) := by
  by_cases h1 : (m.use_single_obs = false ∧ m.obs_builder.length < s.players.length)
  · simp [GameMatch.build_observations, setTruncM, h1]
  · by_cases h2 : m.use_single_obs = true
    · rcases hb : m.obs_builder with _ | ⟨⟨b, st⟩, rest⟩ <;>
        simp [GameMatch.build_observations, setTruncM, h1, h2, hb]
    · have hf : m.use_single_obs = false := by
        cases hu : m.use_single_obs
        · rfl
        · exact absurd hu h2
      have h3 : ¬ m.obs_builder.length < s.players.length := fun hl => h1 ⟨hf, hl⟩
      simp [GameMatch.build_observations, setTruncM, hf, h3]

theorem is_done_mod (m : GameMatch ρ ω α τ π χ σ) (f : GameState → τ → Bool × τ)
    (s : GameState) :
    (setTruncM m f).is_done s = ((m.is_done s).1, setTruncM (m.is_done s).2 f) := by
  simp [GameMatch.is_done, setTruncM]

theorem rewards_mod (m : GameMatch ρ ω α τ π χ σ) (f : GameState → τ → Bool × τ)
    (s : GameState) (d : Bool) :
    (setTruncM m f).get_rewards s d =
      ((m.get_rewards s d).1, setTruncM (m.get_rewards s d).2 f) := by
  simp [GameMatch.get_rewards, setTruncM]

theorem result_mod (m : GameMatch ρ ω α τ π χ σ) (f : GameState → τ → Bool × τ)
    (s : GameState) : (setTruncM m f).get_result s = m.get_result s := rfl

theorem setTruncM_sw (m : GameMatch ρ ω α τ π χ σ) (f : GameState → τ → Bool × τ)
    (w : σ) :
    { setTruncM m f with sim_wrapper := w } = setTruncM { m with sim_wrapper := w } f := rfl

theorem setTruncM_so (m : GameMatch ρ ω α τ π χ σ) (f : GameState → τ → Bool × τ) :
    (setTruncM m f).sim_ops = m.sim_ops := rfl

theorem setTruncM_sw2 (m : GameMatch ρ ω α τ π χ σ) (f : GameState → τ → Bool × τ) :
    (setTruncM m f).sim_wrapper = m.sim_wrapper := rfl

/-- Shows `Gym.step` never consults `is_truncated`: replacing that method changes
none of the observable step outputs (observations, rewards, done, info). -/
theorem setTruncM_sw3 (m : GameMatch ρ ω α τ π χ σ) (f : GameState → τ → Bool × τ)
    (w : σ) :
    ({ setTruncM m f with sim_ops := m.sim_ops, sim_wrapper := w }) =
      setTruncM { m with sim_wrapper := w } f := rfl

theorem gymStep_trunc (g : Gym ρ ω α τ π χ σ) (f : GameState → τ → Bool × τ)
    (actions : List (List F32)) :
    Option.map (fun out => (out.1, out.2.1, out.2.2.1, out.2.2.2.1))
        (Gym.step (setTrunc g f) actions) =
      Option.map (fun out => (out.1, out.2.1, out.2.2.1, out.2.2.2.1))
        (Gym.step g actions) := by
  simp only [Gym.step, setTrunc, parse_mod]
  rcases hp : g.game_match.parse_actions actions g.prev_state with ⟨po, m1⟩
  simp only [hp]
  rcases po with _ | acts
  · simp
  · rcases hs : m1.sim_ops.step acts m1.sim_wrapper with ⟨state, w⟩
    simp only [setTruncM_so, setTruncM_sw2, hs, setTruncM_sw3, build_mod]
    rcases hb : ({ m1 with sim_wrapper := w } :
        GameMatch ρ ω α τ π χ σ).build_observations state with ⟨bo, m2⟩
    simp only [hb]
    rcases bo with _ | obs
    · simp
    · simp [is_done_mod, rewards_mod, result_mod]

theorem episode_reset_initial_score (m m' : GameMatch ρ ω α τ π χ σ) (s0 : GameState)
    (stage : Option Nat) (h : m.episode_reset s0 stage = some m') :
    m'.initial_score = s0.blue_score - s0.orange_score := by
  simp only [GameMatch.episode_reset] at h
  split at h
  · split at h
    · exact absurd h (by simp)
    · obtain rfl := Option.some.inj h
      rfl
  · obtain rfl := Option.some.inj h
    rfl

/-- C5: `get_result(state)` returns `(blue_score − orange_score) −
initial_score`, where `initial_score` was captured as the score differential
of the snapshot passed to the most recent `episode_reset`; a step performed
after the reset surfaces exactly this episode-relative delta as its
`"result"` value. -/
theorem spec_c5 :
    (∀ {r o a t p c s : Type} (m m' : GameMatch r o a t p c s) (s0 : GameState)
      (stage : Option Nat), m.episode_reset s0 stage = some m' →
        ∀ st : GameState, m'.get_result st =
          (st.blue_score - st.orange_score) - (s0.blue_score - s0.orange_score)) ∧
    (∀ {r o a t p c s : Type} (g : Gym r o a t p c s) (m' : GameMatch r o a t p c s)
      (s0 : GameState) (stage : Option Nat) (actions : List (List F32))
      (obs : List (List F32)) (rew : List F32) (done : Bool)
      (info : List (String × Int)) (g1 : Gym r o a t p c s),
      g.game_match.episode_reset s0 stage = some m' →
      Gym.step { g with game_match := m' } actions = some (obs, rew, done, info, g1) →
        info = [("result", (g1.prev_state.blue_score - g1.prev_state.orange_score) -
                  (s0.blue_score - s0.orange_score))]) := by
  constructor
  · intro r o a t p c s m m' s0 stage h st
    rw [GameMatch.get_result, episode_reset_initial_score m m' s0 stage h]
  · intro r o a t p c s g m' s0 stage actions obs rew done info g1 hreset hstep
    obtain ⟨-, hinfo, hisc, -⟩ := gymStep_inv _ actions obs rew done info g1 hstep
    rw [hinfo]
    have hm' : m'.initial_score = s0.blue_score - s0.orange_score :=
      episode_reset_initial_score _ m' s0 stage hreset
    simp [GameMatch.get_result, hisc, hm']

/-- C5 witness: resetting with a 0-0 snapshot then reading the snapshot
where blue leads 1-0 yields result 1, both directly through `get_result` and
through the `"result"` info entry of a full `Gym.step`. -/
theorem spec_c5_witness :
    (testMatchB.episode_reset st2 none).map (fun m => m.get_result stB1) = some 1 ∧
    (Gym.step gymB2 [[0], [0]]).map (fun out => out.2.2.2.1) = some [("result", 1)] := by
  constructor
  · have hres : testMatchB.episode_reset st2 none = some testMatchBReset := rfl
    have h := (spec_c5).1 testMatchB testMatchBReset st2 none hres stB1
    rw [hres, Option.map_some', h]
    rfl
  · rcases hstep : Gym.step gymB2 [[0], [0]] with _ | out
    · have hs : (Gym.step gymB2 [[0], [0]]).isSome = true := rfl
      rw [hstep] at hs
      exact absurd hs (by simp)
    · obtain ⟨obs, rew, done, info, g1⟩ := out
      have hres : gymB.game_match.episode_reset st2 none = some testMatchBReset := rfl
      have h := (spec_c5).2 gymB testMatchBReset st2 none [[0], [0]]
        obs rew done info g1 hres hstep
      have hprev : g1.prev_state = stB1 := by
        have h4 := (gymStep_inv gymB2 [[0], [0]] obs rew done info g1 hstep).2.2.2
          [[0], [0]] rfl
        rw [h4]
        rfl
      simp only [Option.map_some']
      simp [h, hprev, stB1, st2]

/-- C8: a completed `Gym.step` returns `done` exactly as the Terminal
Condition's `is_terminal` verdict on the new snapshot; the new snapshot is
cached as `prev_state` (it is the simulator's output on the parsed actions);
the info map is exactly the `"result"` entry carrying the orchestrator's
`get_result` on the new snapshot; truncation is computed by the
orchestrator's `is_truncated` delegation but replacing it changes none of
the observable step outputs (so it is neither folded into `done` nor
surfaced in `info`). -/
theorem spec_c8 :
    (∀ {r o a t p c s : Type} (g : Gym r o a t p c s) (actions : List (List F32))
      (obs : List (List F32)) (rew : List F32) (done : Bool)
      (info : List (String × Int)) (g1 : Gym r o a t p c s),
      Gym.step g actions = some (obs, rew, done, info, g1) →
        done = (g.game_match.terminal_condition.is_terminal g1.prev_state
                  g.game_match.terminal_state).1 ∧
        info = [("result", g1.game_match.get_result g1.prev_state)] ∧
        (∀ parsed, (g.game_match.parse_actions actions g.prev_state).1 = some parsed →
          g1.prev_state = (g.game_match.sim_ops.step parsed
            g.game_match.sim_wrapper).1)) ∧
    (∀ {r o a t p c s : Type} (m : GameMatch r o a t p c s) (st : GameState),
      (m.is_truncated st).1 = (m.terminal_condition.is_truncated st m.terminal_state).1) ∧
    (∀ {r o a t p c s : Type} (g : Gym r o a t p c s)
      (f : GameState → t → Bool × t) (actions : List (List F32)),
      Option.map (fun out => (out.1, out.2.1, out.2.2.1, out.2.2.2.1))
          (Gym.step (setTrunc g f) actions) =
        Option.map (fun out => (out.1, out.2.1, out.2.2.1, out.2.2.2.1))
          (Gym.step g actions)) := by
  refine ⟨?_, ?_, ?_⟩
  · intro r o a t p c s g actions obs rew done info g1 h
    obtain ⟨h1, h2, -, h4⟩ := gymStep_inv g actions obs rew done info g1 h
    exact ⟨h1, h2, h4⟩
  · intro r o a t p c s m st
    simp [GameMatch.is_truncated]
  · intro r o a t p c s g f actions
    exact gymStep_trunc g f actions

/-- C8 witness: on the concrete facade a step lands on the 1-0 snapshot,
caches it, reports `done = false` (the never-terminal condition), and an
info map of exactly `[("result", 1)]`. -/
theorem spec_c8_witness :
    (Gym.step gymB2 [[0], [0]]).map
        (fun out => (out.2.2.1, out.2.2.2.1, out.2.2.2.2.prev_state)) =
      some (false, [("result", 1)], stB1) := by
  rcases hstep : Gym.step gymB2 [[0], [0]] with _ | out
  · have hs : (Gym.step gymB2 [[0], [0]]).isSome = true := rfl
    rw [hstep] at hs
    exact absurd hs (by simp)
  · obtain ⟨obs, rew, done, info, g1⟩ := out
    obtain ⟨h1, h2, h4⟩ := (spec_c8).1 gymB2 [[0], [0]] obs rew done info g1 hstep
    have hprev : g1.prev_state = stB1 := by
      rw [h4 [[0], [0]] rfl]
      rfl
    have hdone : done = false := by
      rw [h1, hprev]
      rfl
    have hres : g1.game_match.get_result g1.prev_state = 1 := by
      have hisc := (gymStep_inv gymB2 [[0], [0]] obs rew done info g1 hstep).2.2.1
      simp [GameMatch.get_result, hisc, hprev, stB1]
      rfl
    rw [hprev] at hres
    simp [hdone, h2, hres, hprev]

/-- C9: `parse_actions` is atomic on failure: when the cardinality
assertion fails, `prev_actions` and every other orchestrator field is
exactly what it was before the call — only the action parser's internal
state reflects the (acknowledged) parser invocation that precedes the
assertion; the `prev_actions` cache write happens only after the assertion
passes. -/
theorem spec_c9 (m : GameMatch ρ ω α τ π χ σ) (actions : List (List F32))
    (state : GameState) (h : (m.parse_actions actions state).1 = none) :
    (m.parse_actions actions state).2.prev_actions = m.prev_actions ∧
    (m.parse_actions actions state).2.game_config = m.game_config ∧
    (m.parse_actions actions state).2.reward_fn = m.reward_fn ∧
    (m.parse_actions actions state).2.reward_state = m.reward_state ∧
    (m.parse_actions actions state).2.terminal_condition = m.terminal_condition ∧
    (m.parse_actions actions state).2.terminal_state = m.terminal_state ∧
    (m.parse_actions actions state).2.obs_builder = m.obs_builder ∧
    (m.parse_actions actions state).2.action_parse = m.action_parse ∧
    (m.parse_actions actions state).2.state_setter = m.state_setter ∧
    (m.parse_actions actions state).2.setter_state = m.setter_state ∧
    (m.parse_actions actions state).2.agents = m.agents ∧
    (m.parse_actions actions state).2.observation_space = m.observation_space ∧
    (m.parse_actions actions state).2.use_single_obs = m.use_single_obs ∧
    (m.parse_actions actions state).2.action_space = m.action_space ∧
    (m.parse_actions actions state).2.spectator_ids = m.spectator_ids ∧
    (m.parse_actions actions state).2.initial_score = m.initial_score ∧
    (m.parse_actions actions state).2.sim_ops = m.sim_ops ∧
    (m.parse_actions actions state).2.sim_wrapper = m.sim_wrapper ∧
    (m.parse_actions actions state).2.parser_state =
      (m.action_parse.parse_actions actions state m.parser_state).2 := by
  by_cases hc : (m.action_parse.parse_actions actions state m.parser_state).1.length =
      state.players.length
  · exact absurd h (by simp [GameMatch.parse_actions, hc])
  · simp [GameMatch.parse_actions, hc]

/-- C9 witness: on the concrete orchestrator a one-action call against the
two-player snapshot aborts, and the stored `prev_actions` is untouched. -/
theorem spec_c9_witness :
    (testMatch.parse_actions [[0]] st2).1 = none ∧
    (testMatch.parse_actions [[0]] st2).2.prev_actions = testMatch.prev_actions := by
  have hnone : (testMatch.parse_actions [[0]] st2).1 = none := rfl
  exact ⟨hnone, (spec_c9 testMatch [[0]] st2 hnone).1⟩

/-- C10: frame effects of the orchestrator operations: `build_observations`,
`get_rewards`, `is_done` and `is_truncated` leave `game_config`, `agents`,
`spectator_ids`, `initial_score` and `prev_actions` unchanged (`get_result`
takes the orchestrator immutably and returns only an integer);
`parse_actions` may write `prev_actions` but none of the other four fields;
`episode_reset` leaves `game_config` and `agents` unchanged; and
`update_settings` leaves `spectator_ids`, `prev_actions` and
`initial_score` unchanged. -/
theorem spec_c10 :
    (∀ {r o a t p c s : Type} (m : GameMatch r o a t p c s) (st : GameState),
      (m.build_observations st).2.game_config = m.game_config ∧
      (m.build_observations st).2.agents = m.agents ∧
      (m.build_observations st).2.spectator_ids = m.spectator_ids ∧
      (m.build_observations st).2.initial_score = m.initial_score ∧
      (m.build_observations st).2.prev_actions = m.prev_actions) ∧
    (∀ {r o a t p c s : Type} (m : GameMatch r o a t p c s) (st : GameState) (d : Bool),
      (m.get_rewards st d).2.game_config = m.game_config ∧
      (m.get_rewards st d).2.agents = m.agents ∧
      (m.get_rewards st d).2.spectator_ids = m.spectator_ids ∧
      (m.get_rewards st d).2.initial_score = m.initial_score ∧
      (m.get_rewards st d).2.prev_actions = m.prev_actions) ∧
    (∀ {r o a t p c s : Type} (m : GameMatch r o a t p c s) (st : GameState),
      (m.is_done st).2.game_config = m.game_config ∧
      (m.is_done st).2.agents = m.agents ∧
      (m.is_done st).2.spectator_ids = m.spectator_ids ∧
      (m.is_done st).2.initial_score = m.initial_score ∧
      (m.is_done st).2.prev_actions = m.prev_actions) ∧
    (∀ {r o a t p c s : Type} (m : GameMatch r o a t p c s) (st : GameState),
      (m.is_truncated st).2.game_config = m.game_config ∧
      (m.is_truncated st).2.agents = m.agents ∧
      (m.is_truncated st).2.spectator_ids = m.spectator_ids ∧
      (m.is_truncated st).2.initial_score = m.initial_score ∧
      (m.is_truncated st).2.prev_actions = m.prev_actions) ∧
    (∀ {r o a t p c s : Type} (m : GameMatch r o a t p c s)
      (actions : List (List F32)) (st : GameState),
      (m.parse_actions actions st).2.game_config = m.game_config ∧
      (m.parse_actions actions st).2.agents = m.agents ∧
      (m.parse_actions actions st).2.spectator_ids = m.spectator_ids ∧
      (m.parse_actions actions st).2.initial_score = m.initial_score) ∧
    (∀ {r o a t p c s : Type} (m m' : GameMatch r o a t p c s) (s0 : GameState)
      (stage : Option Nat), m.episode_reset s0 stage = some m' →
        m'.game_config = m.game_config ∧ m'.agents = m.agents) ∧
    (∀ {r o a t p c s : Type} (m : GameMatch r o a t p c s) (cfg : GameConfig)
      (nb : Option (List (ObsBuilder o × o))),
      (m.update_settings cfg nb).2.spectator_ids = m.spectator_ids ∧
      (m.update_settings cfg nb).2.prev_actions = m.prev_actions ∧
      (m.update_settings cfg nb).2.initial_score = m.initial_score) := by
  refine ⟨?_, ?_, ?_, ?_, ?_, ?_, ?_⟩
  · intro r o a t p c s m st
    obtain ⟨h1, h2, h3, h4, h5, -, -, -, -, -, -⟩ := build_observations_frame m st
    exact ⟨h1, h2, h3, h4, h5⟩
  · intro r o a t p c s m st d
    exact get_rewards_frame m st d
  · intro r o a t p c s m st
    obtain ⟨h1, h2, h3, h4, h5, -, -⟩ := is_done_frame m st
    exact ⟨h1, h2, h3, h4, h5⟩
  · intro r o a t p c s m st
    exact is_truncated_frame m st
  · intro r o a t p c s m actions st
    obtain ⟨h1, h2, h3, h4, -, -, -, -, -, -, -, -⟩ := parse_actions_frame m actions st
    exact ⟨h1, h2, h3, h4⟩
  · intro r o a t p c s m m' s0 stage h
    simp only [GameMatch.episode_reset] at h
    split at h
    · split at h
      · exact absurd h (by simp)
      · obtain rfl := Option.some.inj h
        exact ⟨rfl, rfl⟩
    · obtain rfl := Option.some.inj h
      exact ⟨rfl, rfl⟩
  · intro r o a t p c s m cfg nb
    simp [GameMatch.update_settings]

/-- C10 witness: resetting the concrete orchestrator with the two-player
snapshot preserves both its config's team size and its agent count. -/
theorem spec_c10_witness :
    (testMatch.episode_reset st2 none).map
        (fun m => (m.game_config.team_size, m.agents)) = some (1, 2) := by
  rcases hres : testMatch.episode_reset st2 none with _ | m'
  · have hs : (testMatch.episode_reset st2 none).isSome = true := rfl
    rw [hres] at hs
    exact absurd hs (by simp)
  · obtain ⟨hg, ha⟩ := (spec_c10).2.2.2.2.2.1 testMatch m' st2 none hres
    simp only [Option.map_some']
    rw [hg, ha]
    rfl
